import Mathlib

/-
Shallow embedding of the OAuth2 authentication core of the Canvas-Git
repository (src/canvas/oauth/auth.py, src/canvas/oauth/server.py,
src/canvas/oauth/types.py, src/canvas/rest/client.py).

Modelling conventions:
- Python datetime values become Int timestamps; timedelta(seconds=n) is n.
- The httpx transport is an explicit environment value (ExchangeOutcome):
  either a parsed JSON token response or an HTTPError with a cause string.
- Mutation of the flow object becomes explicit state passing: each
  effectful method returns the new flow state together with its result.
- Raised exceptions become error values carrying the exception message.
- Counters record how many times a network operation was invoked.
-/

namespace Canvas

/-- Token data model from src/canvas/oauth/types.py (OAuthToken). -/
structure OAuthToken where
  access_token : String
  refresh_token : String
  expires_at : Int
  token_type : String
  deriving DecidableEq

/-- OAuthToken.is_expired: datetime.now() > self.expires_at (strict). -/
def OAuthToken.is_expired (tok : OAuthToken) (now : Int) : Bool :=
  decide (now > tok.expires_at)

/-- Parsed JSON body of the token endpoint (types.py TokenResponse). -/
structure TokenResponse where
  access_token : String
  token_type : String
  refresh_token : String
  expires_in : Int
  deriving DecidableEq

/-- Callback data extracted by the listener (types.py OAuthCallback). -/
structure OAuthCallback where
  code : String
  state : String
  deriving DecidableEq

/-- State of a CanvasAuth flow object (auth.py CanvasAuth attrs fields).
The attribute names _base_url, _state and _token lose their leading
underscore here. -/
structure CanvasAuth where
  client_id : String
  client_secret : String
  canvas_domain : String
  redirect_uri : String
  scopes : String
  base_url : String
  state : String
  token : Option OAuthToken
  deriving DecidableEq

/-- CanvasAuth construction including __attrs_post_init__ (auth.py lines
86-89): base_url is https:// plus the domain, the CSRF state is the
token_urlsafe(32) value generated at construction (passed in here as
fresh_state since it is the single random input), and no token is stored.
The scopes field holds the string rendering of the CanvasScope flag. -/
def CanvasAuth.init (client_id client_secret canvas_domain redirect_uri
    scopes fresh_state : String) : CanvasAuth :=
  { client_id := client_id
    client_secret := client_secret
    canvas_domain := canvas_domain
    redirect_uri := redirect_uri
    scopes := scopes
    base_url := "https://" ++ canvas_domain
    state := fresh_state
    token := none }

/-- Characters urllib.parse.quote_plus leaves unencoded. -/
def isUrlsafe (c : Char) : Bool :=
  c.isAlphanum || c = '_' || c = '.' || c = '-' || c = '~'

/-- Uppercase hexadecimal digit for a value below 16. -/
def hexDigitChar (n : Nat) : Char :=
  if n < 10 then Char.ofNat (48 + n) else Char.ofNat (55 + n)

/-- UTF-8 bytes of a character, as used by quote_plus before
percent-encoding. -/
def utf8Bytes (c : Char) : List Nat :=
  let n := c.toNat
  if n < 128 then [n]
  else if n < 2048 then [192 + n / 64, 128 + n % 64]
  else if n < 65536 then [224 + n / 4096, 128 + n / 64 % 64, 128 + n % 64]
  else [240 + n / 262144, 128 + n / 4096 % 64, 128 + n / 64 % 64,
    128 + n % 64]

/-- Percent-encoding of one byte. -/
def percentEncodeByte (b : Nat) : List Char :=
  ['%', hexDigitChar (b / 16 % 16), hexDigitChar (b % 16)]

/-- urllib.parse.quote_plus: safe characters pass through, space becomes
a plus sign, everything else is percent-encoded bytewise. -/
def quote_plus (s : String) : String :=
  String.mk (List.flatten (s.data.map fun c =>
    if isUrlsafe c then [c]
    else if c = ' ' then ['+']
    else List.flatten ((utf8Bytes c).map percentEncodeByte)))

/-- urllib.parse.urlencode over an association list of parameters. -/
def urlencode (params : List (String × String)) : String :=
  String.intercalate "&" (params.map fun kv =>
    quote_plus kv.1 ++ "=" ++ quote_plus kv.2)

/-- Query parameters built by CanvasAuth._get_auth_url (auth.py lines
103-109), in source order. -/
def CanvasAuth.auth_url_params (auth : CanvasAuth) : List (String × String) :=
  [("client_id", auth.client_id),
   ("response_type", "code"),
   ("redirect_uri", auth.redirect_uri),
   ("state", auth.state),
   ("scope", auth.scopes)]

/-- CanvasAuth._get_auth_url (auth.py lines 97-111): builds the
authorization URL from the stored state. The method reads but never
writes the flow object, so the returned flow state equals the input. -/
def CanvasAuth.get_auth_url (auth : CanvasAuth) : String × CanvasAuth :=
  (auth.base_url ++ "/login/oauth2/auth?" ++ urlencode auth.auth_url_params,
   auth)

/-- First value for a key in an association list of query parameters. -/
def lookupParam (key : String) : List (String × String) → Option String
  | [] => none
  | kv :: rest => if kv.1 = key then some kv.2 else lookupParam key rest

/-- Environment faced by one POST to the token endpoint: either a parsed
2xx JSON response, or an httpx.HTTPError (transport error or
raise_for_status on a non-2xx response) with its message. -/
inductive ExchangeOutcome where
  | success (data : TokenResponse)
  | httpError (cause : String)

/-- Token built from a token-endpoint response: expires_at is
datetime.now() + timedelta(seconds=expires_in) (auth.py lines 151-157
and 184-190). -/
def tokenFromResponse (data : TokenResponse) (now : Int) : OAuthToken :=
  { access_token := data.access_token
    refresh_token := data.refresh_token
    expires_at := now + data.expires_in
    token_type := data.token_type }

/-- Result of one step of the flow: new flow state, normal or exceptional
termination with the exception message, and the number of POSTs made to
the token endpoint during the step. -/
structure StepResult where
  flow : CanvasAuth
  result : Except String Unit
  exchange_calls : Nat

/-- CanvasAuth._exchange_code (auth.py lines 128-160): POSTs the
authorization-code grant to the token endpoint (counted), on success
stores the new token, on HTTPError raises AuthenticationError with the
wrapped cause and leaves the stored token unchanged. -/
def CanvasAuth.exchange_code (auth : CanvasAuth) (code : String)
    (env : ExchangeOutcome) (now : Int) : StepResult :=
  match env with
  | .success data =>
    ⟨{ auth with token := some (tokenFromResponse data now) }, .ok (), 1⟩
  | .httpError cause =>
    ⟨auth, .error ("Token exchange failed: " ++ cause), 1⟩

/-- CanvasAuth._handle_callback (auth.py lines 113-126): raises the CSRF
AuthenticationError when the callback state differs from the stored
state, and only otherwise delegates to _exchange_code. -/
def CanvasAuth.handle_callback (auth : CanvasAuth) (callback : OAuthCallback)
    (env : ExchangeOutcome) (now : Int) : StepResult :=
  if callback.state ≠ auth.state then
    ⟨auth, .error "OAuth2 state parameter mismatch, possible CSRF attack?", 0⟩
  else
    auth.exchange_code callback.code env now

/-- Result of CanvasAuth._refresh_token: new flow state and the raised
AuthenticationError message, if any. -/
structure RefreshResult where
  flow : CanvasAuth
  error : Option String

/-- CanvasAuth._refresh_token (auth.py lines 162-194): raises when no
token is stored; otherwise POSTs the refresh grant; on success replaces
the stored token; on HTTPError clears the stored token and raises with
the wrapped cause. -/
def CanvasAuth.refresh_token (auth : CanvasAuth) (env : ExchangeOutcome)
    (now : Int) : RefreshResult :=
  match auth.token with
  | none => ⟨auth, some "No refresh token available"⟩
  | some _ =>
    match env with
    | .success data =>
      ⟨{ auth with token := some (tokenFromResponse data now) }, none⟩
    | .httpError cause =>
      ⟨{ auth with token := none }, some ("Token refresh failed: " ++ cause)⟩

/-- Result of CanvasAuth.fetch_token: new flow state, access token or
raised error message, and the number of refresh attempts made. -/
structure FetchResult where
  flow : CanvasAuth
  result : Except String String
  refresh_calls : Nat

/-- CanvasAuth.fetch_token (auth.py lines 215-232): raises when no token
is stored; refreshes first when the stored token is expired at the
current instant; returns the access token of the (possibly refreshed)
stored token. The impossible branch after a successful refresh mirrors
the assert in the source. -/
def CanvasAuth.fetch_token (auth : CanvasAuth) (env : ExchangeOutcome)
    (now : Int) : FetchResult :=
  match auth.token with
  | none => ⟨auth, .error "No token available, call authenticate() first", 0⟩
  | some tok =>
    if tok.is_expired now then
      let r := auth.refresh_token env now
      match r.error with
      | some e => ⟨r.flow, .error e, 1⟩
      | none =>
        match r.flow.token with
        | some newTok => ⟨r.flow, .ok newTok.access_token, 1⟩
        | none => ⟨r.flow, .error "assertion failed", 1⟩
    else
      ⟨auth, .ok tok.access_token, 0⟩

/-- CanvasAuth.authorized (auth.py lines 234-241): a token is stored and
it is not expired. -/
def CanvasAuth.authorized (auth : CanvasAuth) (now : Int) : Bool :=
  match auth.token with
  | none => false
  | some tok => !tok.is_expired now

/-- One protocol-level callback delivery (server.py lines 137-144,
OAuthCallbackProtocol._handle_callback): the handler coroutine runs, and
the completion event is set only when it returns normally; when the
handler raises, the exception dies inside the fire-and-forget task
created by asyncio.create_task and the event is never set. -/
structure ProtocolStep where
  step : StepResult
  event_set : Bool

/-- Behaviour of the task spawned in server.py line 81 when the valid
callback is delivered to CanvasAuth._handle_callback. -/
def protocol_handle_callback (auth : CanvasAuth) (callback : OAuthCallback)
    (env : ExchangeOutcome) (now : Int) : ProtocolStep :=
  let r := auth.handle_callback callback env now
  ⟨r, match r.result with | .ok _ => true | .error _ => false⟩

/-- Observable outcome of CanvasAuth.authenticate after the listener has
received one valid callback. -/
inductive AuthenticateOutcome where
  | success (flow : CanvasAuth)
  | errorSurfaced (message : String)
  | blockedForever

/-- CanvasAuth.authenticate (auth.py lines 196-213) composed with
OAuthServer.start (server.py lines 184-200): authenticate awaits
event.wait(), so it returns exactly when the completion event is set and
otherwise keeps waiting; no exception from the handler task reaches it. -/
def authenticate_outcome (auth : CanvasAuth) (callback : OAuthCallback)
    (env : ExchangeOutcome) (now : Int) : AuthenticateOutcome :=
  let p := protocol_handle_callback auth callback env now
  if p.event_set then .success p.step.flow else .blockedForever

/-- Prefix of a character list before the first CRLF, modelling
request.split with separator CRLF, element zero (server.py line 68). -/
def takeFirstLine : List Char → List Char
  | [] => []
  | '\r' :: '\n' :: _ => []
  | c :: rest => c :: takeFirstLine rest

/-- Python str.split with an explicit one-character separator: empty
pieces are kept. -/
def splitOnChar (sep : Char) : List Char → List (List Char)
  | [] => [[]]
  | c :: rest =>
    if c = sep then [] :: splitOnChar sep rest
    else
      match splitOnChar sep rest with
      | [] => [[c]]
      | l :: ls => (c :: l) :: ls

/-- Split at the first occurrence of a character, when present. -/
def breakAtChar (sep : Char) : List Char → Option (List Char × List Char)
  | [] => none
  | c :: rest =>
    if c = sep then some ([], rest)
    else
      match breakAtChar sep rest with
      | none => none
      | some (a, b) => some (c :: a, b)

/-- Hexadecimal digit test for percent-decoding. -/
def isHexDigitChar (c : Char) : Bool :=
  (decide ('0' ≤ c) && decide (c ≤ '9')) ||
  (decide ('a' ≤ c) && decide (c ≤ 'f')) ||
  (decide ('A' ≤ c) && decide (c ≤ 'F'))

/-- Value of a hexadecimal digit. -/
def hexValue (c : Char) : Nat :=
  if decide ('0' ≤ c) && decide (c ≤ '9') then c.toNat - 48
  else if decide ('a' ≤ c) && decide (c ≤ 'f') then c.toNat - 87
  else c.toNat - 55

/-- urllib.parse.unquote_plus at byte granularity: plus signs become
spaces and valid percent escapes are decoded. -/
def unquoteList : List Char → List Char
  | [] => []
  | '%' :: a :: b :: rest =>
    if isHexDigitChar a && isHexDigitChar b then
      Char.ofNat (16 * hexValue a + hexValue b) :: unquoteList rest
    else '%' :: unquoteList (a :: b :: rest)
  | c :: rest => (if c = '+' then ' ' else c) :: unquoteList rest

/-- urllib.parse.parse_qsl with default options: pairs are separated by
ampersands, a pair without an equals sign or with an empty value is
dropped, names and values are unquoted. -/
def parse_qsl (qs : String) : List (String × String) :=
  (splitOnChar '&' qs.data).filterMap fun item =>
    match breakAtChar '=' item with
    | none => none
    | some (name, value) =>
      if value.isEmpty then none
      else some (String.mk (unquoteList name), String.mk (unquoteList value))

/-- First value stored under a key by urllib.parse.parse_qs, modelling
params.get(key, [None])[0] (server.py lines 76-77). -/
def parse_qs_first (qs key : String) : Option String :=
  match (parse_qsl qs).find? (fun kv => kv.1 == key) with
  | none => none
  | some kv => some kv.2

/-- Query component extracted by urllib.parse.urlparse: the part after
the first question mark, with any fragment removed first. -/
def urlparse_query (path : String) : String :=
  let noFrag :=
    match breakAtChar '#' path.data with
    | none => path.data
    | some (a, _) => a
  match breakAtChar '?' noFrag with
  | none => ""
  | some (_, q) => String.mk q

/-- Python str.startswith. -/
def startswith (pre s : String) : Bool :=
  pre.data.isPrefixOf s.data

/-- Python truthiness of an optional string (None and the empty string
are falsy), modelling the test on line 79 of server.py. -/
def truthyOpt : Option String → Bool
  | none => false
  | some s => !s.isEmpty

/-- HTTP response written back on the connection by _send_response
(server.py lines 104-135): status code, status text and body fragment. -/
structure ServerResponse where
  status : Nat
  status_text : String
  body : String
  deriving DecidableEq

/-- Request-line tokens: element zero of the CRLF split, then split on
single spaces (server.py lines 68-69); the handler requires exactly
three tokens, anything else raises ValueError. -/
def lineParts (request : String) : List String :=
  (splitOnChar ' ' (takeFirstLine request.data)).map (fun l => String.mk l)

/-- Body of OAuthCallbackProtocol.data_received once the request line
has parsed into method, path and version (server.py lines 71-97):
only a GET whose raw path starts with /callback is examined for query
parameters; both code and state must be present (and truthy) for the
success response and for the callback to be forwarded to the handler
task; otherwise 400; any other method or path gets 404. -/
def handleRequestLine (method path : String) :
    ServerResponse × Option OAuthCallback :=
  if method = "GET" && startswith "/callback" path then
    let code := parse_qs_first (urlparse_query path) "code"
    let state := parse_qs_first (urlparse_query path) "state"
    if truthyOpt code && truthyOpt state then
      (⟨200, "Authorization Successful", "<h1>Authorization Successful</h1>"⟩,
       some ⟨code.getD "", state.getD ""⟩)
    else
      (⟨400, "Bad Request", "<h1>Authorization Failed</h1>"⟩, none)
  else
    (⟨404, "Not Found", "<h1>404 Not Found</h1>"⟩, none)

/-- OAuthCallbackProtocol.data_received (server.py lines 58-102): the
whole parse is wrapped in a try, and any exception (in particular the
ValueError from unpacking a request line without exactly three tokens)
is answered with a 500 response; the second component is the callback
forwarded to the handler task, none meaning the completion event cannot
be set by this request. -/
def data_received (request : String) : ServerResponse × Option OAuthCallback :=
  match lineParts request with
  | [method, path, _vers] => handleRequestLine method path
  | _ =>
    (⟨500, "Internal Server Error", "<h1>Internal Server Error</h1>"⟩, none)

/-- Python JSON-decoded values, as far as the REST client inspects them. -/
inductive PyValue where
  | pystr (s : String)
  | pyint (n : Int)
  | pybool (b : Bool)
  | pynull
  | pylist (items : List PyValue)
  | pydict (entries : List (String × PyValue))

/-- Python truthiness of a decoded JSON value. -/
def PyValue.truthy : PyValue → Bool
  | .pystr s => !s.isEmpty
  | .pyint n => n != 0
  | .pybool b => b
  | .pynull => false
  | .pylist items => !items.isEmpty
  | .pydict entries => !entries.isEmpty

/-- Python dict.get with a default. -/
def dictGet (entries : List (String × PyValue)) (key : String)
    (dflt : PyValue) : PyValue :=
  match entries.find? (fun kv => kv.1 == key) with
  | none => dflt
  | some kv => kv.2

/-- The part of an httpx.Response the client reads: the status code and
the JSON decoding of the body, none when the body is empty
(response.json() if response.content else None, client.py line 75). -/
structure HttpResponse where
  status_code : Nat
  content : Option PyValue

/-- httpx Response.is_success: the 2xx range. -/
def isSuccessStatus (status : Nat) : Bool :=
  decide (200 ≤ status ∧ status < 300)

/-- APIError fields (errors.py lines 29-69): the message (a decoded JSON
value, since dict.get can return any value), the status code, and the
response body as decoded (None when the body was empty). -/
structure APIError where
  message : PyValue
  status_code : Nat
  response : Option PyValue

/-- CanvasAPIClient._process_response (client.py lines 64-89): empty
bodies decode to None; non-2xx responses raise APIError whose message is
the message field of the decoded body when that body is a dict and the
generic fallback otherwise, and whose response field is the decoded body
itself; 2xx responses return the decoded body, with falsy bodies
replaced by an empty dict. -/
def process_response (r : HttpResponse) : Except APIError PyValue :=
  let data := r.content
  if isSuccessStatus r.status_code then
    match data with
    | some d => if d.truthy then .ok d else .ok (.pydict [])
    | none => .ok (.pydict [])
  else
    let fallback : PyValue := .pystr "API request failed."
    let message :=
      match data with
      | some (.pydict entries) => dictGet entries "message" fallback
      | _ => fallback
    .error ⟨message, r.status_code, data⟩

/-- Python str.lstrip with a slash argument, on character lists. -/
def lstripSlashList : List Char → List Char
  | [] => []
  | c :: rest => if c = '/' then lstripSlashList rest else c :: rest

/-- Python str.lstrip with a slash argument. -/
def lstripSlash (s : String) : String :=
  String.mk (lstripSlashList s.data)

/-- URL-building state of CanvasAPIClient (client.py lines 37-45): the
base URL taken from the auth flow and the configurable path segment
stored in the attribute named prefix in the source. -/
structure CanvasAPIClient where
  base_url : String
  pre : String

/-- CanvasAPIClient._get_url (client.py lines 53-62): base URL, the
configured path segment, a slash, then the endpoint with all leading
slashes stripped. -/
def CanvasAPIClient.get_url (client : CanvasAPIClient)
    (endpoint : String) : String :=
  client.base_url ++ client.pre ++ "/" ++ lstripSlash endpoint

/-- C1: whenever the state of the received callback differs from the
stored CSRF state, _handle_callback raises the state-mismatch
AuthenticationError, leaves the flow unchanged, and performs zero POSTs
to the token endpoint (_exchange_code is never invoked); the state
comparison is the first thing the handler does, before any network
call. -/
theorem handle_callback_state_mismatch (auth : CanvasAuth)
    (callback : OAuthCallback) (env : ExchangeOutcome) (now : Int)
    (h : callback.state ≠ auth.state) :
    auth.handle_callback callback env now =
      ⟨auth, .error "OAuth2 state parameter mismatch, possible CSRF attack?",
       0⟩ := by
  simp [CanvasAuth.handle_callback, h]

/-- Witness for C1 at a concrete flow and mismatched callback. -/
theorem handle_callback_state_mismatch_witness :
    (CanvasAuth.init "id" "sec" "dom" "uri" "" "S").handle_callback
        ⟨"test_code", "X"⟩ (.success ⟨"T", "Bearer", "R", 3600⟩) 0 =
      ⟨CanvasAuth.init "id" "sec" "dom" "uri" "" "S",
       .error "OAuth2 state parameter mismatch, possible CSRF attack?", 0⟩ :=
  handle_callback_state_mismatch _ _ _ _ (by decide)

/-- C2 counterexample: the CSRF state is generated once in
__attrs_post_init__, and _get_auth_url never regenerates it, so two
successive calls on the same flow embed the same state value and even
return identical URLs, contradicting the claim that the earlier state is
invalidated by a fresh one. -/
theorem get_auth_url_state_reuse_counterexample :
    ((CanvasAuth.init "id" "sec" "dom" "uri" "" "S0").get_auth_url.2 =
      CanvasAuth.init "id" "sec" "dom" "uri" "" "S0") ∧
    lookupParam "state"
        (CanvasAuth.init "id" "sec" "dom" "uri" "" "S0").auth_url_params
      = some "S0" ∧
    lookupParam "state"
        ((CanvasAuth.init "id" "sec" "dom" "uri" "" "S0").get_auth_url.2
          ).auth_url_params
      = some "S0" ∧
    ((CanvasAuth.init "id" "sec" "dom" "uri" "" "S0").get_auth_url.2
        ).get_auth_url.1
      = (CanvasAuth.init "id" "sec" "dom" "uri" "" "S0").get_auth_url.1 :=
  ⟨rfl, rfl, rfl, rfl⟩

/-- C2 amended: the state query parameter of the authorization URL
equals the current csrf_state of the flow, but _get_auth_url has no side
effect: the state is generated once at construction, the flow is
returned unchanged, and a second call embeds the same state value. -/
theorem get_auth_url_state_param (auth : CanvasAuth) :
    lookupParam "state" auth.auth_url_params = some auth.state ∧
    auth.get_auth_url.2 = auth ∧
    lookupParam "state" (auth.get_auth_url.2).auth_url_params
      = lookupParam "state" auth.auth_url_params :=
  ⟨rfl, rfl, rfl⟩

/-- C3: the code, not the claim, is wrong. When the listener delegates
the single callback to _handle_callback and the handler raises (here the
CSRF state mismatch), the AuthenticationError dies inside the
fire-and-forget task created by asyncio.create_task, the completion
event is never set, and authenticate() stays blocked on event.wait()
forever instead of surfacing the error, contradicting the documented
contract that authenticate raises AuthenticationError when
authentication fails. -/
theorem authenticate_blocks_on_csrf_error :
    ((CanvasAuth.init "id" "sec" "dom" "uri" "" "expected").handle_callback
        ⟨"test_code", "wrong"⟩ (.success ⟨"T", "Bearer", "R", 3600⟩) 0).result
      = .error "OAuth2 state parameter mismatch, possible CSRF attack?" ∧
    authenticate_outcome (CanvasAuth.init "id" "sec" "dom" "uri" "" "expected")
        ⟨"test_code", "wrong"⟩ (.success ⟨"T", "Bearer", "R", 3600⟩) 0
      = .blockedForever :=
  ⟨rfl, rfl⟩

/-- C4: whenever a token is stored and the refresh POST fails with a
transport error or non-2xx response, _refresh_token clears the stored
token and raises the wrapped refresh-failure AuthenticationError;
afterwards authorized is false at any instant and a subsequent
fetch_token fails immediately with the no-token AuthenticationError,
performing zero refresh attempts instead of retrying. -/
theorem refresh_failure_clears_token (auth : CanvasAuth) (tok : OAuthToken)
    (cause : String) (now : Int) (env2 : ExchangeOutcome) (now2 : Int)
    (h : auth.token = some tok) :
    (auth.refresh_token (.httpError cause) now).flow.token = none ∧
    (auth.refresh_token (.httpError cause) now).error
      = some ("Token refresh failed: " ++ cause) ∧
    (auth.refresh_token (.httpError cause) now).flow.authorized now2
      = false ∧
    (auth.refresh_token (.httpError cause) now).flow.fetch_token env2 now2
      = ⟨(auth.refresh_token (.httpError cause) now).flow,
         .error "No token available, call authenticate() first", 0⟩ := by
  simp [CanvasAuth.refresh_token, h, CanvasAuth.authorized,
    CanvasAuth.fetch_token]

/-- Witness for C4 at a concrete flow holding a token. -/
theorem refresh_failure_clears_token_witness :
    ({ CanvasAuth.init "id" "sec" "dom" "uri" "" "S" with
        token := some ⟨"A", "R", 100, "Bearer"⟩ }.refresh_token
          (.httpError "boom") 200).flow.token = none ∧
    ({ CanvasAuth.init "id" "sec" "dom" "uri" "" "S" with
        token := some ⟨"A", "R", 100, "Bearer"⟩ }.refresh_token
          (.httpError "boom") 200).error
      = some ("Token refresh failed: " ++ "boom") :=
  ⟨(refresh_failure_clears_token _ ⟨"A", "R", 100, "Bearer"⟩ "boom" 200
      (.httpError "x") 300 rfl).1,
   (refresh_failure_clears_token _ ⟨"A", "R", 100, "Bearer"⟩ "boom" 200
      (.httpError "x") 300 rfl).2.1⟩

/-- C5: fetch_token raises the AuthenticationError telling the caller to
call authenticate() first exactly when no token is stored; when the
stored token is expired at the current instant it performs exactly one
refresh attempt, and when it is not expired it performs none; and every
successful result is the access_token string of the token stored in the
resulting flow state. -/
theorem fetch_token_spec (auth : CanvasAuth) (env : ExchangeOutcome)
    (now : Int) :
    (auth.token = none →
      auth.fetch_token env now =
        ⟨auth, .error "No token available, call authenticate() first", 0⟩) ∧
    (∀ tok, auth.token = some tok → tok.is_expired now = true →
      (auth.fetch_token env now).refresh_calls = 1) ∧
    (∀ tok, auth.token = some tok → tok.is_expired now = false →
      auth.fetch_token env now = ⟨auth, .ok tok.access_token, 0⟩) ∧
    (∀ s, (auth.fetch_token env now).result = .ok s →
      ∃ tok, (auth.fetch_token env now).flow.token = some tok ∧
        s = tok.access_token) := by
  refine ⟨?_, ?_, ?_, ?_⟩
  · intro h
    simp [CanvasAuth.fetch_token, h]
  · intro tok h hexp
    simp only [CanvasAuth.fetch_token, h, hexp, if_true]
    split <;> first | rfl | (split <;> rfl)
  · intro tok h hexp
    simp [CanvasAuth.fetch_token, h, hexp]
  · intro s hs
    rcases htok : auth.token with _ | tok
    · simp [CanvasAuth.fetch_token, htok] at hs
    · by_cases hexp : tok.is_expired now
      · simp only [CanvasAuth.fetch_token, htok, hexp, if_true] at hs ⊢
        rcases herr : (auth.refresh_token env now).error with _ | e
        · rcases hflow : (auth.refresh_token env now).flow.token
            with _ | newTok
          · simp [herr, hflow] at hs
          · simp only [herr, hflow] at hs ⊢
            exact ⟨newTok, rfl, (Except.ok.injEq _ _ ▸ hs).symm⟩
        · simp [herr] at hs
      · simp only [CanvasAuth.fetch_token, htok, hexp, if_false] at hs ⊢
        simp only [Bool.false_eq_true, if_false] at hs ⊢
        exact ⟨tok, htok, by cases hs; rfl⟩

/-- Witness for C5 at concrete flows: one with no token, one with an
expired token and a successful refresh environment, one with a live
token, and the successful-result conjunct at the live token. -/
theorem fetch_token_spec_witness :
    ((CanvasAuth.init "id" "sec" "dom" "uri" "" "S").fetch_token
        (.success ⟨"T", "Bearer", "R", 3600⟩) 0 =
      ⟨CanvasAuth.init "id" "sec" "dom" "uri" "" "S",
       .error "No token available, call authenticate() first", 0⟩) ∧
    (({ CanvasAuth.init "id" "sec" "dom" "uri" "" "S" with
        token := some ⟨"A", "R", 100, "Bearer"⟩ }.fetch_token
          (.success ⟨"T", "Bearer", "R", 3600⟩) 200).refresh_calls = 1) ∧
    ({ CanvasAuth.init "id" "sec" "dom" "uri" "" "S" with
        token := some ⟨"A", "R", 100, "Bearer"⟩ }.fetch_token
          (.success ⟨"T", "Bearer", "R", 3600⟩) 50 =
      ⟨{ CanvasAuth.init "id" "sec" "dom" "uri" "" "S" with
          token := some ⟨"A", "R", 100, "Bearer"⟩ }, .ok "A", 0⟩) :=
  ⟨(fetch_token_spec _ _ _).1 rfl,
   (fetch_token_spec _ _ _).2.1 ⟨"A", "R", 100, "Bearer"⟩ rfl (by decide),
   (fetch_token_spec _ _ _).2.2.1 ⟨"A", "R", 100, "Bearer"⟩ rfl (by decide)⟩

/-- C6 counterexample: a request whose request line does not split into
exactly three tokens is answered by the except branch with a 500
Internal Server Error response, not the 400 response the claim states
(completion is indeed not signaled). -/
theorem malformed_line_500_counterexample :
    (data_received "NOT_A_REQUEST").1.status = 500 ∧
    (data_received "NOT_A_REQUEST").1.status ≠ 400 ∧
    (data_received "NOT_A_REQUEST").2 = none :=
  ⟨rfl, by decide, rfl⟩

/-- C6 amended: an unparseable request line yields a 500 response
without crashing or signaling completion; a GET request whose raw path
starts with the callback path but whose query lacks a (non-empty) code
or state yields a 400 response without signaling completion; and
completion is signaled only by a GET request whose raw path starts with
the callback path and whose query carries both a code and a state. -/
theorem data_received_spec (request : String) :
    ((lineParts request).length ≠ 3 →
      (data_received request).1.status = 500 ∧
      (data_received request).2 = none) ∧
    (∀ m p v, lineParts request = [m, p, v] →
      (m = "GET" && startswith "/callback" p) = true →
      (truthyOpt (parse_qs_first (urlparse_query p) "code") &&
        truthyOpt (parse_qs_first (urlparse_query p) "state")) = false →
      (data_received request).1.status = 400 ∧
      (data_received request).2 = none) ∧
    (∀ cb, (data_received request).2 = some cb →
      ∃ m p v, lineParts request = [m, p, v] ∧ m = "GET" ∧
        startswith "/callback" p = true ∧
        truthyOpt (parse_qs_first (urlparse_query p) "code") = true ∧
        truthyOpt (parse_qs_first (urlparse_query p) "state") = true) := by
  refine ⟨?_, ?_, ?_⟩
  · intro hlen
    unfold data_received
    split
    · next m p v heq => exact absurd (by rw [heq]; rfl) hlen
    · exact ⟨rfl, rfl⟩
  · intro m p v heq hmp hq
    unfold data_received
    rw [heq]
    simp [handleRequestLine, hmp, hq]
  · intro cb hcb
    unfold data_received at hcb
    split at hcb
    · next m p v heq =>
      refine ⟨m, p, v, heq, ?_⟩
      unfold handleRequestLine at hcb
      split at hcb
      · next hif =>
        simp only [Bool.and_eq_true] at hif
        obtain ⟨hm, hp⟩ := hif
        by_cases htr : (truthyOpt (parse_qs_first (urlparse_query p) "code") &&
            truthyOpt (parse_qs_first (urlparse_query p) "state")) = true
        · simp only [Bool.and_eq_true] at htr
          exact ⟨of_decide_eq_true hm, hp, htr.1, htr.2⟩
        · simp only [Bool.not_eq_true] at htr
          simp [htr] at hcb
      · exact absurd hcb (by simp)
    · exact absurd hcb (by simp)

/-- Witness for C6 at concrete requests: a malformed request line gets
500 and a callback request missing the code parameter gets 400. -/
theorem data_received_spec_witness :
    ((data_received "NOT A REQUEST LINE").1.status = 500 ∧
      (data_received "NOT A REQUEST LINE").2 = none) ∧
    ((data_received "GET /callback?state=xyz HTTP/1.1").1.status = 400 ∧
      (data_received "GET /callback?state=xyz HTTP/1.1").2 = none) :=
  ⟨(data_received_spec "NOT A REQUEST LINE").1 (by decide),
   (data_received_spec "GET /callback?state=xyz HTTP/1.1").2.1
     "GET" "/callback?state=xyz" "HTTP/1.1" (by decide) (by decide)
     (by decide)⟩

/-- C7 counterexample: the path check is startswith, not exact equality,
so the GET request to /callbackx (not the callback path) carrying code
and state is answered 200 and forwarded to the handler, where the claim
demands a 404 without completion. -/
theorem nonexact_path_accepted_counterexample :
    data_received "GET /callbackx?code=a&state=b HTTP/1.1" =
      (⟨200, "Authorization Successful", "<h1>Authorization Successful</h1>"⟩,
       some ⟨"a", "b"⟩) ∧
    (data_received "GET /callbackx?code=a&state=b HTTP/1.1").1.status ≠ 404 :=
  ⟨rfl, by decide⟩

/-- C7 amended: every parsed request whose method is not GET or whose
raw path does not start with the callback path is answered 404 on that
connection without signaling completion; the listener accepts GET
requests whose raw path merely starts with the callback path, not only
those addressed exactly to it. -/
theorem non_callback_request_404 (request m p v : String)
    (heq : lineParts request = [m, p, v])
    (h : (m = "GET" && startswith "/callback" p) = false) :
    (data_received request).1.status = 404 ∧
    (data_received request).2 = none := by
  unfold data_received
  rw [heq]
  simp [handleRequestLine, h]

/-- Witness for C7 at a concrete request to a different path carrying
both parameters. -/
theorem non_callback_request_404_witness :
    (data_received "GET /other?code=a&state=b HTTP/1.1").1.status = 404 ∧
    (data_received "GET /other?code=a&state=b HTTP/1.1").2 = none :=
  non_callback_request_404 "GET /other?code=a&state=b HTTP/1.1"
    "GET" "/other?code=a&state=b" "HTTP/1.1" (by decide) (by decide)

/-- C8: _get_url strips all leading slashes from the endpoint, so for
every endpoint string the endpoints x, /x and //x resolve to the
identical full URL made of the base URL, the configured path segment and
the endpoint. -/
theorem get_url_slash_idempotent (client : CanvasAPIClient)
    (endpoint : String) :
    client.get_url ("/" ++ endpoint) = client.get_url endpoint ∧
    client.get_url ("//" ++ endpoint) = client.get_url endpoint := by
  have hone : ∀ s : String, lstripSlash ("/" ++ s) = lstripSlash s := by
    intro s
    show String.mk (lstripSlashList ('/' :: s.data)) = _
    simp [lstripSlashList, lstripSlash]
  constructor
  · show _ ++ lstripSlash ("/" ++ endpoint) = _ ++ lstripSlash endpoint
    rw [hone]
  · show _ ++ lstripSlash ("//" ++ endpoint) = _ ++ lstripSlash endpoint
    have : ("//" ++ endpoint : String) = "/" ++ ("/" ++ endpoint) := rfl
    rw [this, hone, hone]

/-- C9: expiry uses a strict comparison, so at the exact expiry instant
the token still counts as valid: is_expired is false, authorized is
true, and fetch_token returns the stored access token with zero refresh
attempts. -/
theorem token_valid_at_expiry_instant (auth : CanvasAuth) (tok : OAuthToken)
    (env : ExchangeOutcome) (h : auth.token = some tok) :
    tok.is_expired tok.expires_at = false ∧
    auth.authorized tok.expires_at = true ∧
    auth.fetch_token env tok.expires_at = ⟨auth, .ok tok.access_token, 0⟩ := by
  have hexp : tok.is_expired tok.expires_at = false := by
    simp [OAuthToken.is_expired]
  exact ⟨hexp, by simp [CanvasAuth.authorized, h, hexp],
    by simp [CanvasAuth.fetch_token, h, hexp]⟩

/-- Witness for C9 at a concrete flow whose token expires at instant
100, observed exactly at instant 100. -/
theorem token_valid_at_expiry_instant_witness :
    OAuthToken.is_expired ⟨"A", "R", 100, "Bearer"⟩ 100 = false ∧
    ({ CanvasAuth.init "id" "sec" "dom" "uri" "" "S" with
        token := some ⟨"A", "R", 100, "Bearer"⟩ }.fetch_token
          (.httpError "unused") 100 =
      ⟨{ CanvasAuth.init "id" "sec" "dom" "uri" "" "S" with
          token := some ⟨"A", "R", 100, "Bearer"⟩ }, .ok "A", 0⟩) :=
  ⟨(token_valid_at_expiry_instant
      { CanvasAuth.init "id" "sec" "dom" "uri" "" "S" with
          token := some ⟨"A", "R", 100, "Bearer"⟩ }
      ⟨"A", "R", 100, "Bearer"⟩ (.httpError "unused") rfl).1,
   (token_valid_at_expiry_instant
      { CanvasAuth.init "id" "sec" "dom" "uri" "" "S" with
          token := some ⟨"A", "R", 100, "Bearer"⟩ }
      ⟨"A", "R", 100, "Bearer"⟩ (.httpError "unused") rfl).2.2⟩

/-- C10: for every non-2xx response with an empty body,
_process_response raises an APIError whose message is the generic
fallback string, whose status code is the response status, and whose
response field is None rather than an empty dict; and when the body
decodes to anything other than a dict, the message field is not
consulted and the fallback is used as well. -/
theorem process_response_failure_spec (r : HttpResponse)
    (hfail : isSuccessStatus r.status_code = false) :
    (r.content = none →
      process_response r =
        .error ⟨.pystr "API request failed.", r.status_code, none⟩) ∧
    (∀ d, r.content = some d → (∀ entries, d ≠ .pydict entries) →
      process_response r =
        .error ⟨.pystr "API request failed.", r.status_code, some d⟩) := by
  constructor
  · intro h
    simp [process_response, hfail, h]
  · intro d hd hnd
    cases d <;> simp [process_response, hfail, hd]
    exact absurd rfl (hnd _)

/-- Witness for C10 at a concrete 404 response with an empty body and a
concrete 500 response whose body decodes to a list. -/
theorem process_response_failure_spec_witness :
    process_response ⟨404, none⟩ =
      .error ⟨.pystr "API request failed.", 404, none⟩ ∧
    process_response ⟨500, some (.pylist [])⟩ =
      .error ⟨.pystr "API request failed.", 500, some (.pylist [])⟩ :=
  ⟨(process_response_failure_spec ⟨404, none⟩ (by decide)).1 rfl,
   (process_response_failure_spec ⟨500, some (.pylist [])⟩ (by decide)).2
     (.pylist []) rfl (fun _ h => PyValue.noConfusion h)⟩

end Canvas
